import Mathlib

/-!
# Verification of the RemsPrueApp2 tablero client

Shallow embedding of the data model, record validator
(`TableroElectricoModel.validate`), list state composer
(`filteredTableros` / `displayedTableros` / `loadMoreTableros` in
`TablerosListView`), remote data gateway (`TableroService`), the
controller (`TableroController.createTablero`) and the mutation hooks
(`useTableros`), together with proofs of the specification's testable
properties.

JavaScript strings are modelled as Lean `String`s, JS numbers as `Int`
(no `NaN`/float behaviour is relied on by the verified code paths), and
JS truthiness of the relevant values is made explicit (`""` and `0` are
falsy).  The ambient "current year" (`new Date().getFullYear()`) is a
parameter `cy` of the model constructor.
-/

namespace RemsPrue

/-- JS `x || d` for an optional string value: `null`/`undefined` and the
empty string are falsy and fall through to the default. -/
def jsOrStr (v : Option String) (d : String) : String :=
  match v with
  | none => d
  | some s => if s = "" then d else s

/-- JS `x || d` for an optional integer value: `null`/`undefined` and `0`
are falsy and fall through to the default. -/
def jsOrInt (v : Option Int) (d : Int) : Int :=
  match v with
  | none => d
  | some n => if n = 0 then d else n

/-- JS `String.prototype.trim`, over the character list. -/
def trimChars (l : List Char) : List Char :=
  ((l.dropWhile Char.isWhitespace).reverse.dropWhile Char.isWhitespace).reverse

/-- JS `String.prototype.trim`. -/
def jsTrim (s : String) : String := ⟨trimChars s.data⟩

/-- JS `String.prototype.toLowerCase` (ASCII case mapping, as in
`Char.toLower`). -/
def jsToLower (s : String) : String := ⟨s.data.map Char.toLower⟩

/-- JS `haystack.includes(needle)`: contiguous substring test. -/
def jsIncludes (hay needle : String) : Bool :=
  hay.data.tails.any (fun t => needle.data.isPrefixOf t)

/-- The tablero record as held by `TableroElectricoModel` after its
constructor has run (every field populated). -/
structure Tablero where
  id : Option String
  nombre : String
  ubicacion : String
  marca : String
  capacidad_amperios : Int
  ano_fabricacion : Int
  ano_instalacion : Int
  estado : String
deriving Repr, DecidableEq

/-- Raw (possibly partial) constructor input for
`TableroElectricoModel`: absent fields are `none`. -/
structure TableroData where
  id : Option String
  nombre : Option String
  ubicacion : Option String
  marca : Option String
  capacidad_amperios : Option Int
  ano_fabricacion : Option Int
  ano_instalacion : Option Int
  estado : Option String
deriving Repr, DecidableEq

/-- The all-absent constructor input. -/
def TableroData.empty : TableroData :=
  ⟨none, none, none, none, none, none, none, none⟩

namespace TableroElectricoModel

/-- The `TableroElectricoModel` constructor: each field is
`data.field || default`; the year defaults are the current year `cy`. -/
def ofData (cy : Int) (d : TableroData) : Tablero where
  id := match d.id with
        | none => none
        | some s => if s = "" then none else some s
  nombre := jsOrStr d.nombre ""
  ubicacion := jsOrStr d.ubicacion ""
  marca := jsOrStr d.marca ""
  capacidad_amperios := jsOrInt d.capacidad_amperios 0
  ano_fabricacion := jsOrInt d.ano_fabricacion cy
  ano_instalacion := jsOrInt d.ano_instalacion cy
  estado := jsOrStr d.estado "Operativo"

/-- Result shape of `TableroElectricoModel.validate`. -/
structure ValidationResult where
  isValid : Bool
  errors : List String
deriving Repr, DecidableEq

/-- Translation of `TableroElectricoModel.validate`, line by line: each `if` pushes one
message onto `errors`; `isValid` is `errors.length === 0`.  String
falsiness (`!this.nombre`) is `= ""`; numeric falsiness
(`!this.capacidad_amperios`) is `= 0`. -/
def validate (t : Tablero) : ValidationResult :=
  let errors : List String := []
  let errors := if t.nombre = "" ∨ jsTrim t.nombre = ""
    then errors ++ ["El nombre es requerido"] else errors
  let errors := if t.ubicacion = "" ∨ jsTrim t.ubicacion = ""
    then errors ++ ["La ubicación es requerida"] else errors
  let errors := if t.marca = "" ∨ jsTrim t.marca = ""
    then errors ++ ["La marca es requerida"] else errors
  let errors := if t.capacidad_amperios = 0 ∨ t.capacidad_amperios ≤ 0
    then errors ++ ["La capacidad en amperios debe ser mayor a 0"] else errors
  let errors := if t.ano_fabricacion = 0 ∨ t.ano_fabricacion < 1900
    then errors ++ ["El año de fabricación no es válido"] else errors
  let errors := if t.ano_instalacion = 0 ∨ t.ano_instalacion < 1900
    then errors ++ ["El año de instalación no es válido"] else errors
  let errors := if t.ano_instalacion < t.ano_fabricacion
    then errors ++ ["El año de instalación no puede ser anterior al año de fabricación"]
    else errors
  { isValid := errors.length == 0, errors := errors }

end TableroElectricoModel

/-! ## The seven validation rules of §4.2, stated from the spec -/

/-- The seven rules of spec §4.2, in the order the spec lists them. -/
inductive Rule where
  | nombreRule | ubicacionRule | marcaRule | capacidadRule
  | fabricacionRule | instalacionRule | ordenRule
deriving Repr, DecidableEq

/-- All seven rules in spec order. -/
def Rule.all : List Rule :=
  [.nombreRule, .ubicacionRule, .marcaRule, .capacidadRule,
   .fabricacionRule, .instalacionRule, .ordenRule]

/-- Whether rule `r` of §4.2 is violated by record `t` (a constructed
record has every field present, so "present" is already satisfied and
only the range part of rules 4-6 can fail). -/
def Rule.violated (t : Tablero) : Rule → Bool
  | .nombreRule => jsTrim t.nombre == ""
  | .ubicacionRule => jsTrim t.ubicacion == ""
  | .marcaRule => jsTrim t.marca == ""
  | .capacidadRule => decide (t.capacidad_amperios ≤ 0)
  | .fabricacionRule => decide (t.ano_fabricacion < 1900)
  | .instalacionRule => decide (t.ano_instalacion < 1900)
  | .ordenRule => decide (t.ano_instalacion < t.ano_fabricacion)

/-- The error message the validator emits for each rule. -/
def Rule.message : Rule → String
  | .nombreRule => "El nombre es requerido"
  | .ubicacionRule => "La ubicación es requerida"
  | .marcaRule => "La marca es requerida"
  | .capacidadRule => "La capacidad en amperios debe ser mayor a 0"
  | .fabricacionRule => "El año de fabricación no es válido"
  | .instalacionRule => "El año de instalación no es válido"
  | .ordenRule => "El año de instalación no puede ser anterior al año de fabricación"

/-- The rules of §4.2 violated by `t`, in spec order. -/
def violatedRules (t : Tablero) : List Rule :=
  Rule.all.filter (Rule.violated t)

/-- The empty string trims to itself. -/
lemma jsTrim_empty : jsTrim "" = "" := rfl

lemma validate_cond_str (s : String) :
    (s = "" ∨ jsTrim s = "") ↔ jsTrim s = "" := by
  constructor
  · rintro (h | h)
    · rw [h]; rfl
    · exact h
  · exact Or.inr

lemma validate_cond_cap (c : Int) : (c = 0 ∨ c ≤ 0) ↔ c ≤ 0 := by omega

lemma validate_cond_year (a : Int) : (a = 0 ∨ a < 1900) ↔ a < 1900 := by omega

lemma if_push {c : Prop} [Decidable c] (l : List String) (m : String) :
    (if c then l ++ [m] else l) = l ++ (if c then [m] else []) := by
  split <;> simp

set_option maxHeartbeats 1600000 in
/-- The validator's error list is exactly the list of §4.2 rule messages
for the violated rules, in spec order. -/
lemma validate_errors_spec (t : Tablero) :
    (TableroElectricoModel.validate t).errors
      = (violatedRules t).map Rule.message := by
  simp only [TableroElectricoModel.validate, if_push, List.nil_append,
    List.append_assoc]
  simp only [violatedRules, Rule.all, List.filter_cons, List.filter_nil,
    Rule.violated, beq_iff_eq, decide_eq_true_eq]
  simp only [validate_cond_str, validate_cond_cap, validate_cond_year]
  simp only [Rule.message, apply_ite (List.map Rule.message), List.map_cons,
    List.map_nil]
  split_ifs <;> rfl

/-- The validator's `isValid` flag is `true` exactly when no §4.2 rule is
violated. -/
lemma validate_isValid_spec (t : Tablero) :
    (TableroElectricoModel.validate t).isValid = true ↔ violatedRules t = [] := by
  have herr := validate_errors_spec t
  have : (TableroElectricoModel.validate t).isValid
      = ((TableroElectricoModel.validate t).errors.length == 0) := by
    simp only [TableroElectricoModel.validate]
  rw [this, herr]
  simp

/-- C1: for every tablero record, `validate` reports `valid = false` iff
at least one of the seven §4.2 rules is violated, and `errors` contains
exactly one entry (that rule's message) per violated rule, in spec
order — no short-circuiting. -/
theorem C1_validator_complete (t : Tablero) :
    ((TableroElectricoModel.validate t).isValid = false ↔ violatedRules t ≠ []) ∧
    (TableroElectricoModel.validate t).errors
      = (violatedRules t).map Rule.message := by
  refine ⟨?_, validate_errors_spec t⟩
  have h := validate_isValid_spec t
  constructor
  · intro hfalse hnil
    rw [h.mpr hnil] at hfalse
    cases hfalse
  · intro hne
    cases hv : (TableroElectricoModel.validate t).isValid with
    | false => rfl
    | true => exact absurd (h.mp hv) hne

/-! ## List state composer (`TablerosListView`, feature-complete revision)

`filteredTableros` / `displayedTableros` are the two `useMemo` blocks of
the list screen; `loadMoreTableros` advances the `page` state.  The
fetched `data` value is guarded by `Array.isArray(data) ? data : []`. -/

/-- The possible shapes of the fetched `data` value as seen by the list
view (only an array carries records). -/
inductive FetchedData where
  | arr (items : List Tablero)
  | nullVal
  | undefVal
  | objVal (detail : Option String)
  | numVal (n : Int)
  | strVal (s : String)
deriving Repr, DecidableEq

/-- JS `Array.isArray`. -/
def FetchedData.isArrayJs : FetchedData → Bool
  | .arr _ => true
  | _ => false

/-- The guard `const tableros = Array.isArray(data) ? data : []`. -/
def tableros (data : FetchedData) : List Tablero :=
  match data with
  | .arr items => items
  | _ => []

/-- The constant `ITEMS_PER_PAGE = 10`. -/
def ITEMS_PER_PAGE : Nat := 10

/-- JS `Array.prototype.slice(start, stop)` for non-negative in-range
arguments, as used by the composer (`slice(0, page * ITEMS_PER_PAGE)`). -/
def jsSlice (l : List Tablero) (start stop : Nat) : List Tablero :=
  (l.drop start).take (stop - start)

/-- The `filteredTableros` memo: search filter (case-insensitive
unanchored substring against nombre/ubicacion/marca/estado, applied only
when the search term is non-blank) then year filter (string comparison
against `ano_fabricacion.toString()`, applied only when `selectedYear`
is truthy). -/
def filteredTableros (tableros : List Tablero) (searchTerm : String)
    (selectedYear : Option String) : List Tablero :=
  if tableros.length = 0 then []
  else
    let filtered := tableros
    let filtered := if jsTrim searchTerm ≠ "" then
        let searchLower := jsTrim (jsToLower searchTerm)
        filtered.filter (fun tablero =>
          jsIncludes (jsToLower tablero.nombre) searchLower ||
          jsIncludes (jsToLower tablero.ubicacion) searchLower ||
          jsIncludes (jsToLower tablero.marca) searchLower ||
          jsIncludes (jsToLower tablero.estado) searchLower)
      else filtered
    let filtered := match selectedYear with
      | some y => if y ≠ ""
          then filtered.filter (fun tablero => toString tablero.ano_fabricacion == y)
          else filtered
      | none => filtered
    filtered

/-- The `displayedTableros` memo:
`filteredTableros.slice(0, page * ITEMS_PER_PAGE)` with an early `[]` on
an empty filtered set. -/
def displayedTableros (filtered : List Tablero) (page : Nat) : List Tablero :=
  if filtered.length = 0 then []
  else jsSlice filtered 0 (page * ITEMS_PER_PAGE)

/-- Translation of `loadMoreTableros`: a no-op when the visible set already covers the
filtered set, otherwise `setPage(prevPage + 1)`. -/
def loadMoreTableros (filtered : List Tablero) (page : Nat) : Nat :=
  if (displayedTableros filtered page).length ≥ filtered.length then page
  else page + 1

lemma displayedTableros_eq_take (filtered : List Tablero) (page : Nat) :
    displayedTableros filtered page = filtered.take (page * ITEMS_PER_PAGE) := by
  unfold displayedTableros jsSlice
  split
  · next h =>
    rw [List.length_eq_zero.mp h]
    simp
  · simp

/-- The filtered set is always a sublist (order-preserving selection) of
the input collection. -/
lemma filteredTableros_sublist (coll : List Tablero) (term : String)
    (year : Option String) : (filteredTableros coll term year).Sublist coll := by
  unfold filteredTableros
  split
  · exact List.nil_sublist _
  · dsimp only
    have hsearch : (if jsTrim term ≠ "" then
        coll.filter (fun tablero =>
          jsIncludes (jsToLower tablero.nombre) (jsTrim (jsToLower term)) ||
          jsIncludes (jsToLower tablero.ubicacion) (jsTrim (jsToLower term)) ||
          jsIncludes (jsToLower tablero.marca) (jsTrim (jsToLower term)) ||
          jsIncludes (jsToLower tablero.estado) (jsTrim (jsToLower term)))
      else coll).Sublist coll := by
      split
      · exact List.filter_sublist _
      · exact List.Sublist.refl _
    cases year with
    | none => exact hsearch
    | some y =>
      dsimp only
      split
      · exact List.Sublist.trans (List.filter_sublist _) hsearch
      · exact hsearch

/-- C3: the visible set is the first `page × 10` records of the filtered
set (a growing prefix, not a window); loading more advances the page
counter by one while the visible set does not yet cover the filtered
set, and is a no-op (same page, same visible set) once it does. -/
theorem C3_pagination_prefix (filtered : List Tablero) (p : Nat) (hp : 1 ≤ p) :
    displayedTableros filtered p = filtered.take (p * ITEMS_PER_PAGE) ∧
    ((displayedTableros filtered p).length < filtered.length →
      loadMoreTableros filtered p = p + 1) ∧
    (filtered.length ≤ (displayedTableros filtered p).length →
      loadMoreTableros filtered p = p ∧
      displayedTableros filtered (loadMoreTableros filtered p)
        = displayedTableros filtered p) := by
  refine ⟨displayedTableros_eq_take filtered p, ?_, ?_⟩
  · intro hlt
    unfold loadMoreTableros
    rw [if_neg]
    omega
  · intro hge
    have hload : loadMoreTableros filtered p = p := by
      unfold loadMoreTableros
      rw [if_pos hge]
    exact ⟨hload, by rw [hload]⟩

/-- A 25-record demo collection (server order = index order). -/
def demoTablero (i : Nat) : Tablero where
  id := some (toString i)
  nombre := "Tablero " ++ toString i
  ubicacion := "Piso " ++ toString i
  marca := "ABB"
  capacidad_amperios := 100
  ano_fabricacion := 2000
  ano_instalacion := 2001
  estado := "Operativo"

/-- 25 records, as in the spec's pagination example. -/
def demoColl : List Tablero := (List.range 25).map demoTablero

/-- Witness for C3 at the spec's example: 25 unfiltered records, page 3
(visible set = all 25, a further load is a no-op). -/
theorem C3_pagination_prefix_witness :
    displayedTableros demoColl 3 = demoColl.take (3 * ITEMS_PER_PAGE) ∧
    ((displayedTableros demoColl 3).length < demoColl.length →
      loadMoreTableros demoColl 3 = 3 + 1) ∧
    (demoColl.length ≤ (displayedTableros demoColl 3).length →
      loadMoreTableros demoColl 3 = 3 ∧
      displayedTableros demoColl (loadMoreTableros demoColl 3)
        = displayedTableros demoColl 3) :=
  C3_pagination_prefix demoColl 3 (by decide)

/-- C6: for a fixed filtered set and increasing page counter the visible
set is a (stable or growing) prefix — it never shrinks and never
reorders — and the filter step preserves the upstream order stably (the
filtered set is a sublist of the collection). -/
theorem C6_monotone_pagination (coll : List Tablero) (term : String)
    (year : Option String) (p q : Nat) (hpq : p ≤ q) :
    (displayedTableros (filteredTableros coll term year) p).IsPrefix
        (displayedTableros (filteredTableros coll term year) q) ∧
    (displayedTableros (filteredTableros coll term year) p).length
        ≤ (displayedTableros (filteredTableros coll term year) q).length ∧
    (filteredTableros coll term year).Sublist coll := by
  have hq : p * ITEMS_PER_PAGE ≤ q * ITEMS_PER_PAGE :=
    Nat.mul_le_mul_right _ hpq
  refine ⟨?_, ?_, filteredTableros_sublist coll term year⟩
  · rw [displayedTableros_eq_take, displayedTableros_eq_take]
    have : (filteredTableros coll term year).take (p * ITEMS_PER_PAGE)
        = ((filteredTableros coll term year).take (q * ITEMS_PER_PAGE)).take
            (p * ITEMS_PER_PAGE) := by
      rw [List.take_take, Nat.min_eq_left hq]
    rw [this]
    exact List.take_prefix _ _
  · rw [displayedTableros_eq_take, displayedTableros_eq_take]
    rw [List.length_take, List.length_take]
    omega

/-- Witness for C6 at pages 1 ≤ 2 over the demo collection. -/
theorem C6_monotone_pagination_witness :
    (displayedTableros (filteredTableros demoColl "" none) 1).IsPrefix
        (displayedTableros (filteredTableros demoColl "" none) 2) ∧
    (displayedTableros (filteredTableros demoColl "" none) 1).length
        ≤ (displayedTableros (filteredTableros demoColl "" none) 2).length ∧
    (filteredTableros demoColl "" none).Sublist demoColl :=
  C6_monotone_pagination demoColl "" none 1 2 (by decide)

/-- C8: the composer is a pure, deterministic function of its inputs —
two runs on equal collection, search term, year filter and page yield
the same visible set.  (In this shallow embedding the composer is a
function, so referential transparency is inherited from the source's
`useMemo` blocks recomputing from the full collection.) -/
theorem C8_composer_deterministic (c₁ c₂ : List Tablero) (t₁ t₂ : String)
    (y₁ y₂ : Option String) (p₁ p₂ : Nat)
    (hc : c₁ = c₂) (ht : t₁ = t₂) (hy : y₁ = y₂) (hp : p₁ = p₂) :
    displayedTableros (filteredTableros c₁ t₁ y₁) p₁
      = displayedTableros (filteredTableros c₂ t₂ y₂) p₂ := by
  rw [hc, ht, hy, hp]

/-- Witness for C8 at a concrete input. -/
theorem C8_composer_deterministic_witness :
    displayedTableros (filteredTableros demoColl "abb" (some "2000")) 1
      = displayedTableros (filteredTableros demoColl "abb" (some "2000")) 1 :=
  C8_composer_deterministic demoColl demoColl "abb" "abb" (some "2000")
    (some "2000") 1 1 rfl rfl rfl rfl

/-- C10: any non-array fetched `data` value is replaced by the empty
collection before composing, so the filtered and visible sets are empty
(the composer, a total function, cannot fail on malformed data). -/
theorem C10_non_array_data_safe (d : FetchedData) (term : String)
    (year : Option String) (p : Nat) (h : FetchedData.isArrayJs d = false) :
    tableros d = [] ∧
    filteredTableros (tableros d) term year = [] ∧
    displayedTableros (filteredTableros (tableros d) term year) p = [] := by
  have htab : tableros d = [] := by
    cases d <;> simp_all [FetchedData.isArrayJs, tableros]
  refine ⟨htab, ?_, ?_⟩ <;> rw [htab] <;> rfl

/-- Witness for C10 at `data = null`. -/
theorem C10_non_array_data_safe_witness :
    tableros .nullVal = [] ∧
    filteredTableros (tableros .nullVal) "x" (some "2000") = [] ∧
    displayedTableros (filteredTableros (tableros .nullVal) "x" (some "2000")) 2 = [] :=
  C10_non_array_data_safe .nullVal "x" (some "2000") 2 rfl

/-! ## Remote data gateway (`TableroService`)

Each operation is modelled as a function of the `fetch` outcome: either
a network error (the `fetch` promise rejects) or an `HttpResponse`
carrying a status and the result of `response.json()` (`.error msg`
when the body is empty or not parseable as JSON, carrying the parse
exception's message).  A `throw` inside `try` is an `Except.error`; the
`catch` block converts it to the uniform failure result. -/

/-- A parsed JSON object body, with the fields the client reads:
a server-supplied `detail` error description, a `message`, and tablero
record fields. -/
structure Json where
  detail : Option String
  message : Option String
  fields : TableroData
deriving Repr, DecidableEq

/-- The empty object `{}` produced by `.catch(() => ({}))`. -/
def Json.emptyObj : Json := ⟨none, none, TableroData.empty⟩

deriving instance DecidableEq for Except

/-- An HTTP response: status code plus the outcome of parsing the body
as JSON. -/
structure HttpResponse where
  status : Nat
  jsonBody : Except String Json
deriving Repr, DecidableEq

/-- JS `response.ok`: status in the 2xx range. -/
def HttpResponse.ok (r : HttpResponse) : Bool :=
  decide (200 ≤ r.status) && decide (r.status < 300)

/-- Outcome of a `fetch` call: rejection with a message, or a response. -/
inductive FetchOutcome where
  | networkError (msg : String)
  | response (r : HttpResponse)
deriving Repr, DecidableEq

/-- The gateway's uniform `{success, data, error}` result object. -/
structure ServiceResult where
  success : Bool
  data : Option Json
  error : Option String
deriving Repr, DecidableEq

/-- The uniform failure result `{success:false, data:null, error:message}`. -/
def failureResult (msg : String) : ServiceResult :=
  { success := false, data := none, error := some msg }

/-- The error-path body read `response.json().catch(() => ({}))`. -/
def errorData (r : HttpResponse) : Json :=
  match r.jsonBody with
  | .ok j => j
  | .error _ => Json.emptyObj

/-- The `catch (error)` block of each service method: a thrown error
becomes the uniform failure result. -/
def catchWrap (body : Except String ServiceResult) : ServiceResult :=
  match body with
  | .ok res => res
  | .error msg => failureResult msg

/-- A JS `async` function whose whole body is `try … catch { return
failureResult }`, seen at the promise level: `.error` would be a
rejected promise. -/
def promiseOf (body : Except String ServiceResult) : Except String ServiceResult :=
  match body with
  | .ok res => .ok res
  | .error msg => .ok (failureResult msg)

lemma promiseOf_eq_ok (body : Except String ServiceResult) :
    promiseOf body = .ok (catchWrap body) := by
  cases body <;> rfl

namespace TableroService

/-- The `try` block of `getAllTableros`: non-2xx throws the generic
status message (the response body is never consulted); a 2xx body parse
failure propagates the parse exception. -/
def getAllTablerosTry (o : FetchOutcome) : Except String ServiceResult :=
  match o with
  | .networkError msg => .error msg
  | .response r =>
    if !r.ok then
      .error ("Error al obtener tableros: " ++ toString r.status)
    else
      match r.jsonBody with
      | .error msg => .error msg
      | .ok j => .ok { success := true, data := some j, error := none }

/-- Translation of `TableroService.getAllTableros`. -/
def getAllTableros (o : FetchOutcome) : ServiceResult :=
  catchWrap (getAllTablerosTry o)

/-- The `try` block of `createTablero`: non-2xx throws
`errorData.detail || generic`. -/
def createTableroTry (o : FetchOutcome) : Except String ServiceResult :=
  match o with
  | .networkError msg => .error msg
  | .response r =>
    if !r.ok then
      .error (jsOrStr (errorData r).detail
        ("Error al crear tablero: " ++ toString r.status))
    else
      match r.jsonBody with
      | .error msg => .error msg
      | .ok j => .ok { success := true, data := some j, error := none }

/-- Translation of `TableroService.createTablero`. -/
def createTablero (o : FetchOutcome) : ServiceResult :=
  catchWrap (createTableroTry o)

/-- The `try` block of `updateTablero`. -/
def updateTableroTry (o : FetchOutcome) : Except String ServiceResult :=
  match o with
  | .networkError msg => .error msg
  | .response r =>
    if !r.ok then
      .error (jsOrStr (errorData r).detail
        ("Error al actualizar tablero: " ++ toString r.status))
    else
      match r.jsonBody with
      | .error msg => .error msg
      | .ok j => .ok { success := true, data := some j, error := none }

/-- Translation of `TableroService.updateTablero`. -/
def updateTablero (o : FetchOutcome) : ServiceResult :=
  catchWrap (updateTableroTry o)

/-- The `try` block of `deleteTablero`: on 2xx an unparseable/empty body
falls back to `{ message: 'Eliminado exitosamente' }` instead of
throwing. -/
def deleteTableroTry (o : FetchOutcome) : Except String ServiceResult :=
  match o with
  | .networkError msg => .error msg
  | .response r =>
    if !r.ok then
      .error (jsOrStr (errorData r).detail
        ("Error al eliminar tablero: " ++ toString r.status))
    else
      let data := match r.jsonBody with
        | .ok j => j
        | .error _ => { detail := none, message := some "Eliminado exitosamente",
                        fields := TableroData.empty }
      .ok { success := true, data := some data, error := none }

/-- Translation of `TableroService.deleteTablero`. -/
def deleteTablero (o : FetchOutcome) : ServiceResult :=
  catchWrap (deleteTableroTry o)

end TableroService

/-- Spec §4.3: a failure outcome — network failure or non-2xx status. -/
def failedOutcome : FetchOutcome → Bool
  | .networkError _ => true
  | .response r => !r.ok

/-- Spec §4.3's failure message: prefer a (non-empty) server-supplied
`detail` field when the body parsed as JSON, else the generic message. -/
def preferredMessage (r : HttpResponse) (generic : String) : String :=
  match r.jsonBody with
  | .ok j => match j.detail with
    | some d => if d = "" then generic else d
    | none => generic
  | .error _ => generic

lemma jsOrStr_errorData_eq_preferredMessage (r : HttpResponse) (g : String) :
    jsOrStr (errorData r).detail g = preferredMessage r g := by
  obtain ⟨st, body⟩ := r
  cases body with
  | ok j =>
    obtain ⟨d, m, f⟩ := j
    cases d <;> rfl
  | error msg => rfl

/-- A non-2xx response whose JSON body carries `detail: "boom"`. -/
def detailResp : HttpResponse :=
  { status := 500, jsonBody := .ok ⟨some "boom", none, TableroData.empty⟩ }

/-- Counterexample to C5 as stated: on a non-2xx response whose body
carries `detail: "boom"`, the list operation's error message is the
generic status-coded one — `getAllTableros` never consults the
server-supplied detail field (unlike create/update/delete). -/
theorem C5_counterexample :
    failedOutcome (.response detailResp) = true ∧
    (TableroService.getAllTableros (.response detailResp)).error
      = some "Error al obtener tableros: 500" ∧
    (TableroService.getAllTableros (.response detailResp)).error ≠ some "boom" ∧
    (TableroService.createTablero (.response detailResp)).error = some "boom" := by
  refine ⟨rfl, rfl, ?_, rfl⟩
  decide

/-- C5 (amended): every gateway operation maps a network failure or
non-2xx response to `{success:false, data:null, error:message}`; for
create/update/delete the message prefers a non-empty server-supplied
`detail` field when the body parses, else a generic status-coded
message, while for the list operation the message is always the generic
status-coded one (network failures propagate the network error's
message in all four). -/
theorem C5_gateway_failure_shape (o : FetchOutcome)
    (h : failedOutcome o = true) :
    (∀ msg, o = .networkError msg →
      TableroService.getAllTableros o = failureResult msg ∧
      TableroService.createTablero o = failureResult msg ∧
      TableroService.updateTablero o = failureResult msg ∧
      TableroService.deleteTablero o = failureResult msg) ∧
    (∀ r, o = .response r →
      TableroService.getAllTableros o
        = failureResult ("Error al obtener tableros: " ++ toString r.status) ∧
      TableroService.createTablero o
        = failureResult (preferredMessage r
            ("Error al crear tablero: " ++ toString r.status)) ∧
      TableroService.updateTablero o
        = failureResult (preferredMessage r
            ("Error al actualizar tablero: " ++ toString r.status)) ∧
      TableroService.deleteTablero o
        = failureResult (preferredMessage r
            ("Error al eliminar tablero: " ++ toString r.status))) := by
  constructor
  · rintro msg rfl
    exact ⟨rfl, rfl, rfl, rfl⟩
  · rintro r rfl
    have hok : r.ok = false := by
      simpa [failedOutcome] using h
    simp only [← jsOrStr_errorData_eq_preferredMessage]
    simp [TableroService.getAllTableros, TableroService.getAllTablerosTry,
      TableroService.createTablero, TableroService.createTableroTry,
      TableroService.updateTablero, TableroService.updateTableroTry,
      TableroService.deleteTablero, TableroService.deleteTableroTry,
      catchWrap, failureResult, hok]

/-- Witness for C5 (amended) at a 404 with unparseable body. -/
theorem C5_gateway_failure_shape_witness :
    (∀ msg, FetchOutcome.response ⟨404, .error "SyntaxError"⟩
        = .networkError msg →
      TableroService.getAllTableros (.response ⟨404, .error "SyntaxError"⟩)
        = failureResult msg ∧
      TableroService.createTablero (.response ⟨404, .error "SyntaxError"⟩)
        = failureResult msg ∧
      TableroService.updateTablero (.response ⟨404, .error "SyntaxError"⟩)
        = failureResult msg ∧
      TableroService.deleteTablero (.response ⟨404, .error "SyntaxError"⟩)
        = failureResult msg) ∧
    (∀ r, FetchOutcome.response ⟨404, .error "SyntaxError"⟩ = .response r →
      TableroService.getAllTableros (.response ⟨404, .error "SyntaxError"⟩)
        = failureResult ("Error al obtener tableros: " ++ toString r.status) ∧
      TableroService.createTablero (.response ⟨404, .error "SyntaxError"⟩)
        = failureResult (preferredMessage r
            ("Error al crear tablero: " ++ toString r.status)) ∧
      TableroService.updateTablero (.response ⟨404, .error "SyntaxError"⟩)
        = failureResult (preferredMessage r
            ("Error al actualizar tablero: " ++ toString r.status)) ∧
      TableroService.deleteTablero (.response ⟨404, .error "SyntaxError"⟩)
        = failureResult (preferredMessage r
            ("Error al eliminar tablero: " ++ toString r.status))) :=
  C5_gateway_failure_shape (.response ⟨404, .error "SyntaxError"⟩) (by decide)

/-- C7: every delete call whose response is 2xx yields
`{success:true, error:null}`; when the body is empty or unparseable the
data defaults to the confirmation object
`{ message: 'Eliminado exitosamente' }`, and when it parses the data is
the parsed body. -/
theorem C7_delete_tolerates_empty_body (r : HttpResponse) (h : r.ok = true) :
    (TableroService.deleteTablero (.response r)).success = true ∧
    (TableroService.deleteTablero (.response r)).error = none ∧
    (∀ msg, r.jsonBody = .error msg →
      (TableroService.deleteTablero (.response r)).data
        = some ⟨none, some "Eliminado exitosamente", TableroData.empty⟩) ∧
    (∀ j, r.jsonBody = .ok j →
      (TableroService.deleteTablero (.response r)).data = some j) := by
  have hd : TableroService.deleteTablero (.response r)
      = { success := true,
          data := some (match r.jsonBody with
            | .ok j => j
            | .error _ => ⟨none, some "Eliminado exitosamente", TableroData.empty⟩),
          error := none } := by
    simp [TableroService.deleteTablero, TableroService.deleteTableroTry, h,
      catchWrap]
  refine ⟨by rw [hd], by rw [hd], ?_, ?_⟩
  · intro msg hmsg
    rw [hd, hmsg]
  · intro j hj
    rw [hd, hj]

/-- Witness for C7 at a 204 with an empty (unparseable) body. -/
theorem C7_delete_tolerates_empty_body_witness :
    (TableroService.deleteTablero
        (.response ⟨204, .error "Unexpected end of JSON input"⟩)).success = true ∧
    (TableroService.deleteTablero
        (.response ⟨204, .error "Unexpected end of JSON input"⟩)).error = none ∧
    (∀ msg, (Except.error "Unexpected end of JSON input" : Except String Json)
        = .error msg →
      (TableroService.deleteTablero
        (.response ⟨204, .error "Unexpected end of JSON input"⟩)).data
        = some ⟨none, some "Eliminado exitosamente", TableroData.empty⟩) ∧
    (∀ j, (Except.error "Unexpected end of JSON input" : Except String Json)
        = .ok j →
      (TableroService.deleteTablero
        (.response ⟨204, .error "Unexpected end of JSON input"⟩)).data = some j) :=
  C7_delete_tolerates_empty_body ⟨204, .error "Unexpected end of JSON input"⟩
    (by decide)

/-! ## Mutation hooks (`useTableros`)

`mutationFn` returns the service's result object; React Query invokes
`onError` only when the returned promise rejects, and otherwise runs the
hook's `onSuccess` (cache invalidation of the `['tableros']` query) and
then the caller's `onSuccess` callback (the screens' success alert). -/

/-- Observable effects of one mutation dispatch. -/
structure MutationEffects where
  invalidatedTableros : Bool
  hookErrorAlert : Bool
  callerOnSuccessRan : Bool
  result : Option ServiceResult
deriving Repr, DecidableEq

/-- React Query's dispatch on the settled `mutationFn` promise. -/
def runMutation (call : Except String ServiceResult) : MutationEffects :=
  match call with
  | .ok res =>
    { invalidatedTableros := true, hookErrorAlert := false,
      callerOnSuccessRan := true, result := some res }
  | .error _ =>
    { invalidatedTableros := false, hookErrorAlert := true,
      callerOnSuccessRan := false, result := none }

/-- Translation of `useCreateTablero().mutate`, as a function of the fetch outcome. -/
def useCreateTablero (o : FetchOutcome) : MutationEffects :=
  runMutation (promiseOf (TableroService.createTableroTry o))

/-- Translation of `useUpdateTablero().mutate`. -/
def useUpdateTablero (o : FetchOutcome) : MutationEffects :=
  runMutation (promiseOf (TableroService.updateTableroTry o))

/-- Translation of `useDeleteTablero().mutate`. -/
def useDeleteTablero (o : FetchOutcome) : MutationEffects :=
  runMutation (promiseOf (TableroService.deleteTableroTry o))

/-- C9: the three mutating service methods catch every exception and
return a result object, so their promises always fulfil with the
service result; consequently the mutation hooks' `onError` never fires,
and the `onSuccess` path — invalidation of the `['tableros']` cache and
the screens' success alert — runs for every outcome, including outcomes
whose returned result has `success:false` (witnessed by a network
failure). -/
theorem C9_mutation_onError_unreachable :
    (∀ o, promiseOf (TableroService.createTableroTry o)
            = .ok (TableroService.createTablero o) ∧
          promiseOf (TableroService.updateTableroTry o)
            = .ok (TableroService.updateTablero o) ∧
          promiseOf (TableroService.deleteTableroTry o)
            = .ok (TableroService.deleteTablero o)) ∧
    (∀ o, useCreateTablero o
            = ⟨true, false, true, some (TableroService.createTablero o)⟩ ∧
          useUpdateTablero o
            = ⟨true, false, true, some (TableroService.updateTablero o)⟩ ∧
          useDeleteTablero o
            = ⟨true, false, true, some (TableroService.deleteTablero o)⟩) ∧
    (∃ o, (TableroService.createTablero o).success = false ∧
          (useCreateTablero o).invalidatedTableros = true ∧
          (useCreateTablero o).callerOnSuccessRan = true ∧
          (useCreateTablero o).hookErrorAlert = false) := by
  have hrun : ∀ body : Except String ServiceResult,
      runMutation (promiseOf body)
        = ⟨true, false, true, some (catchWrap body)⟩ := by
    intro body
    cases body <;> rfl
  refine ⟨?_, ?_, ?_⟩
  · intro o
    exact ⟨promiseOf_eq_ok _, promiseOf_eq_ok _, promiseOf_eq_ok _⟩
  · intro o
    exact ⟨hrun _, hrun _, hrun _⟩
  · exact ⟨.networkError "Network request failed", rfl, rfl, rfl, rfl⟩

/-! ## Controller (`TableroController.createTablero`)

The controller builds a model instance from the submitted data, runs the
§4.2 validator, and only on success calls the gateway; the returned pair
records the result together with whether the HTTP call was issued. -/

/-- JS `Array.prototype.join(sep)`. -/
def jsJoin (sep : String) : List String → String
  | [] => ""
  | [x] => x
  | x :: xs => x ++ sep ++ jsJoin sep xs

/-- The controller's `{success, data, error}` result. -/
structure ControllerResult where
  success : Bool
  data : Option Tablero
  error : Option String
deriving Repr, DecidableEq

namespace TableroController

/-- Translation of `TableroController.createTablero`: validate first; on validation
failure return the joined error string without calling the service
(second component `false` = no HTTP call), otherwise call the service
and map its result. -/
def createTablero (cy : Int) (d : TableroData) (o : FetchOutcome) :
    ControllerResult × Bool :=
  let tablero := TableroElectricoModel.ofData cy d
  let validation := TableroElectricoModel.validate tablero
  if validation.isValid = false then
    ({ success := false, data := none,
       error := some (jsJoin ", " validation.errors) }, false)
  else
    let result := TableroService.createTablero o
    if result.success then
      ({ success := true,
         data := some (TableroElectricoModel.ofData cy
           (match result.data with
            | some j => j.fields
            | none => TableroData.empty)),
         error := none }, true)
    else
      ({ success := result.success, data := none, error := result.error }, true)

end TableroController

/-- A create submission with `capacidad_amperios = 0` whose nombre is
absent: two rules are violated at once. -/
def badCreateData : TableroData :=
  { id := none, nombre := none, ubicacion := some "Sala", marca := some "ABB",
    capacidad_amperios := some 0, ano_fabricacion := some 2020,
    ano_instalacion := some 2021, estado := some "Operativo" }

/-- Counterexample to C2 as stated: with `capacidad_amperios = 0` and an
(arbitrary) empty nombre, validation fails but the reported error is the
joined pair of messages, not exactly the capacity-rule message. -/
theorem C2_counterexample :
    badCreateData.capacidad_amperios = some 0 ∧
    (TableroController.createTablero 2025 badCreateData
        (.networkError "offline")).1.error
      ≠ some "La capacidad en amperios debe ser mayor a 0" ∧
    (TableroController.createTablero 2025 badCreateData
        (.networkError "offline")).1.error
      = some "El nombre es requerido, La capacidad en amperios debe ser mayor a 0" ∧
    (TableroController.createTablero 2025 badCreateData
        (.networkError "offline")).2 = false := by
  refine ⟨rfl, ?_, rfl, rfl⟩
  decide

/-- C2 (amended): for every create submission through the controller
whose `capacidad_amperios` equals 0, validation fails before any
network call (no HTTP call is issued): the result carries the joined
messages of all violated rules, among which the capacity-rule message —
exactly that message when no other rule is violated. -/
theorem C2_create_capacity_zero (cy : Int) (d : TableroData) (o : FetchOutcome)
    (h : d.capacidad_amperios = some 0) :
    (TableroController.createTablero cy d o).1.success = false ∧
    (TableroController.createTablero cy d o).2 = false ∧
    "La capacidad en amperios debe ser mayor a 0"
      ∈ (TableroElectricoModel.validate (TableroElectricoModel.ofData cy d)).errors ∧
    (TableroController.createTablero cy d o).1.error
      = some (jsJoin ", "
          (TableroElectricoModel.validate (TableroElectricoModel.ofData cy d)).errors) ∧
    ((TableroElectricoModel.validate (TableroElectricoModel.ofData cy d)).errors
        = ["La capacidad en amperios debe ser mayor a 0"] →
      (TableroController.createTablero cy d o).1.error
        = some "La capacidad en amperios debe ser mayor a 0") := by
  have hcap : (TableroElectricoModel.ofData cy d).capacidad_amperios = 0 := by
    simp [TableroElectricoModel.ofData, jsOrInt, h]
  have hmem : "La capacidad en amperios debe ser mayor a 0"
      ∈ (TableroElectricoModel.validate (TableroElectricoModel.ofData cy d)).errors := by
    rw [validate_errors_spec]
    refine List.mem_map.mpr ⟨.capacidadRule, ?_, rfl⟩
    refine List.mem_filter.mpr ⟨?_, ?_⟩
    · simp [Rule.all]
    · simp [Rule.violated, hcap]
  have hvr : violatedRules (TableroElectricoModel.ofData cy d) ≠ [] := by
    intro hnil
    have := validate_errors_spec (TableroElectricoModel.ofData cy d)
    rw [hnil] at this
    rw [this] at hmem
    cases hmem
  have hval : (TableroElectricoModel.validate
      (TableroElectricoModel.ofData cy d)).isValid = false := by
    cases hiv : (TableroElectricoModel.validate
        (TableroElectricoModel.ofData cy d)).isValid with
    | false => rfl
    | true => exact absurd ((validate_isValid_spec _).mp hiv) hvr
  have hctrl : TableroController.createTablero cy d o
      = ({ success := false, data := none,
           error := some (jsJoin ", " (TableroElectricoModel.validate
             (TableroElectricoModel.ofData cy d)).errors) }, false) := by
    simp [TableroController.createTablero, hval]
  refine ⟨by rw [hctrl], by rw [hctrl], hmem, by rw [hctrl], ?_⟩
  intro hsingle
  rw [hctrl, hsingle]
  rfl

/-- A create submission with `capacidad_amperios = 0` and every other
field valid. -/
def zeroCapData : TableroData :=
  { id := none, nombre := some "Tablero A", ubicacion := some "Sala 1",
    marca := some "ABB", capacidad_amperios := some 0,
    ano_fabricacion := some 2020, ano_instalacion := some 2021,
    estado := some "Operativo" }

/-- Witness for C2 (amended) at a submission whose only invalid field is
the zero capacity. -/
theorem C2_create_capacity_zero_witness :
    (TableroController.createTablero 2025 zeroCapData
        (.networkError "offline")).1.success = false ∧
    (TableroController.createTablero 2025 zeroCapData
        (.networkError "offline")).2 = false ∧
    "La capacidad en amperios debe ser mayor a 0"
      ∈ (TableroElectricoModel.validate
          (TableroElectricoModel.ofData 2025 zeroCapData)).errors ∧
    (TableroController.createTablero 2025 zeroCapData
        (.networkError "offline")).1.error
      = some (jsJoin ", " (TableroElectricoModel.validate
          (TableroElectricoModel.ofData 2025 zeroCapData)).errors) ∧
    ((TableroElectricoModel.validate
        (TableroElectricoModel.ofData 2025 zeroCapData)).errors
        = ["La capacidad en amperios debe ser mayor a 0"] →
      (TableroController.createTablero 2025 zeroCapData
          (.networkError "offline")).1.error
        = some "La capacidad en amperios debe ser mayor a 0") :=
  C2_create_capacity_zero 2025 zeroCapData (.networkError "offline") rfl

/-! ## C4: the filter predicate, stated from the spec -/

/-- Spec §4.1: the (lowercased, trimmed) search term is an unanchored
contiguous substring of the record's nombre, ubicacion, marca or estado,
case-insensitively. -/
def matchesSearch (term : String) (t : Tablero) : Prop :=
  (jsTrim (jsToLower term)).data <:+: (jsToLower t.nombre).data ∨
  (jsTrim (jsToLower term)).data <:+: (jsToLower t.ubicacion).data ∨
  (jsTrim (jsToLower term)).data <:+: (jsToLower t.marca).data ∨
  (jsTrim (jsToLower term)).data <:+: (jsToLower t.estado).data

/-- Spec §4.1: the year filter is unset (no selection, or the falsy
empty selection) or equals the record's manufacture year (the view
compares decimal string representations). -/
def matchesYear (year : Option String) (t : Tablero) : Prop :=
  year = none ∨ year = some "" ∨ year = some (toString t.ano_fabricacion)

lemma jsIncludes_eq_true_iff (hay needle : String) :
    jsIncludes hay needle = true ↔ needle.data <:+: hay.data := by
  unfold jsIncludes
  rw [List.any_eq_true]
  constructor
  · rintro ⟨u, hu, hpre⟩
    rw [List.mem_tails] at hu
    exact List.infix_iff_prefix_suffix.mpr
      ⟨u, List.isPrefixOf_iff_prefix.mp hpre, hu⟩
  · intro hinf
    obtain ⟨u, hpre, hsuf⟩ := List.infix_iff_prefix_suffix.mp hinf
    exact ⟨u, (List.mem_tails _ _).mpr hsuf, List.isPrefixOf_iff_prefix.mpr hpre⟩

/-- C4: a record of the collection is in the filtered set iff the
(case-insensitive, unanchored) substring predicate holds on one of the
four text fields AND the year predicate holds; a record matching only
one of the two never appears in any visible set. -/
theorem C4_filter_conjunction (coll : List Tablero) (t : Tablero)
    (term : String) (year : Option String)
    (hmem : t ∈ coll) (hactive : jsTrim term ≠ "") :
    (t ∈ filteredTableros coll term year ↔
      matchesSearch term t ∧ matchesYear year t) ∧
    (∀ p, t ∈ displayedTableros (filteredTableros coll term year) p →
      matchesSearch term t ∧ matchesYear year t) := by
  have hlen : ¬ coll.length = 0 := by
    intro h0
    rw [List.length_eq_zero.mp h0] at hmem
    cases hmem
  have hmain : t ∈ filteredTableros coll term year ↔
      matchesSearch term t ∧ matchesYear year t := by
    simp only [filteredTableros]
    rw [if_neg hlen, if_pos hactive]
    cases year with
    | none =>
      rw [List.mem_filter]
      simp [hmem, matchesSearch, matchesYear, jsIncludes_eq_true_iff, or_assoc]
    | some y =>
      dsimp only
      by_cases hy : y = ""
      · subst hy
        rw [if_neg (by simp), List.mem_filter]
        simp [hmem, matchesSearch, matchesYear, jsIncludes_eq_true_iff, or_assoc]
      · rw [if_pos hy, List.mem_filter, List.mem_filter]
        simp only [hmem, true_and, Bool.or_eq_true, jsIncludes_eq_true_iff,
          beq_iff_eq, matchesSearch, matchesYear, and_true, or_assoc]
        constructor
        · rintro ⟨hs, hyr⟩
          exact ⟨hs, Or.inr (Or.inr (by rw [hyr]))⟩
        · rintro ⟨hs, hyr⟩
          refine ⟨hs, ?_⟩
          rcases hyr with h | h | h
          · cases h
          · exact absurd (Option.some_injective _ h) hy
          · exact (Option.some_injective _ h).symm
  refine ⟨hmain, fun p hin => hmain.mp ?_⟩
  rw [displayedTableros_eq_take] at hin
  exact List.take_subset _ _ hin

/-- The spec's example record matching the search term "norte". -/
def tNorte : Tablero where
  id := some "1"
  nombre := "Tablero Piso 1 - Ala Norte"
  ubicacion := "Edificio A"
  marca := "Siemens"
  capacidad_amperios := 200
  ano_fabricacion := 2018
  ano_instalacion := 2019
  estado := "Operativo"

/-- The spec's example record not matching "norte". -/
def tSur : Tablero where
  id := some "2"
  nombre := "Sala Sur"
  ubicacion := "Edificio B"
  marca := "ABB"
  capacidad_amperios := 150
  ano_fabricacion := 2020
  ano_instalacion := 2021
  estado := "Mantenimiento"

/-- Witness for C4 at the spec's example: search "norte" on a two-record
collection, no year filter. -/
theorem C4_filter_conjunction_witness :
    (tNorte ∈ filteredTableros [tNorte, tSur] "norte" none ↔
      matchesSearch "norte" tNorte ∧ matchesYear none tNorte) ∧
    (∀ p, tNorte ∈ displayedTableros
        (filteredTableros [tNorte, tSur] "norte" none) p →
      matchesSearch "norte" tNorte ∧ matchesYear none tNorte) :=
  C4_filter_conjunction [tNorte, tSur] tNorte "norte" none
    (List.mem_cons_self _ _) (by decide)

end RemsPrue
